import Mathlib

/-!
Verification of the `pytools-hardware-control` drivers: a shallow embedding
of the TTI1604 multimeter decoder and protocol (`dmm.py`), the
TektronixScope acquisition pipeline (`scope.py`), the DeltaPSU wrapper
(`psu.py`) and the `PinRegister` bookkeeping (`piplate/base.py`),
together with theorems about the behaviour of those embeddings.

Python conventions used throughout the embedding:
* bytes are natural numbers (0..255);
* `float` values are modelled as rationals;
* raised exceptions are modelled with `Except PyErr`;
* a `dict` lookup that can miss is a `Nat → Option _` function, a missing
  key being a `KeyError`.
-/

/-- The Python exception kinds that the embedded code can raise. -/
inductive PyErr where
  | keyError
  | typeError
  | valueError
  | attributeError
  | indexError
  | unicodeDecodeError
  | zeroDivisionError
  | timeoutError
  | connectionError
  | serialError
  | tekError
  | npError
  | unknownCommandError
  | valueOutOfBoundsError
  | currentLimitError
  | runtimeError
  deriving DecidableEq, Repr

/-- Result of `parse_number`: Python returns either a `float` or leaves the
decoded display string unchanged when `float(val)` raises `ValueError`. -/
inductive NumOrStr where
  | num (q : ℚ)
  | str (s : String)
  deriving DecidableEq, Repr

/-! ### A model of Python `float(string)` for the 7-segment alphabet

The strings fed to `float` by `parse_number` are built from the characters
`-`, `.`, `0`-`9` and the letter codes `A C D E F R T U L` of the lookup
table, so the model covers sign, decimal point and an `E` exponent part
(the only float-literal characters reachable from that alphabet). -/

def isAsciiDigit (c : Char) : Bool :=
  decide ('0' ≤ c) && decide (c ≤ '9')

/-- Numeric value of a digit string (the caller checks all-digits). -/
def digitsVal (cs : List Char) : ℕ :=
  cs.foldl (fun a c => 10 * a + (c.toNat - 48)) 0

/-- Parse a decimal mantissa: digits with at most one dot, at least one
digit overall (Python accepts `"4."` and `".5"` but not `"."`). -/
def parseMantissa (cs : List Char) : Option ℚ :=
  match cs.splitOn '.' with
  | [intPart] =>
      if intPart.all isAsciiDigit ∧ intPart ≠ [] then
        some (digitsVal intPart)
      else none
  | [intPart, fracPart] =>
      if intPart.all isAsciiDigit ∧ fracPart.all isAsciiDigit ∧
          (intPart ≠ [] ∨ fracPart ≠ []) then
        some ((digitsVal intPart : ℚ) +
          (digitsVal fracPart : ℚ) / (10 : ℚ) ^ fracPart.length)
      else none
  | _ => none

/-- Parse an unsigned float literal, allowing one `E` exponent part. -/
def parseUnsigned (cs : List Char) : Option ℚ :=
  match cs.splitOn 'E' with
  | [m] => parseMantissa m
  | [m, e] =>
      match parseMantissa m with
      | some q =>
          if e.all isAsciiDigit ∧ e ≠ [] then
            some (q * (10 : ℚ) ^ digitsVal e)
          else none
      | none => none
  | _ => none

/-- Model of Python `float(s)` on the display-string alphabet: `some`
when the conversion succeeds, `none` when it raises `ValueError`. -/
def pyFloat (s : String) : Option ℚ :=
  match s.data with
  | '-' :: rest => (parseUnsigned rest).map Neg.neg
  | cs => parseUnsigned cs

/-! ### TTI1604 multimeter (`dmm.py`)

A `Frame` is one 10-byte readout; the fields mirror `char[0]`..`char[9]`. -/

structure Frame where
  b0 : ℕ
  b1 : ℕ
  b2 : ℕ
  b3 : ℕ
  b4 : ℕ
  b5 : ℕ
  b6 : ℕ
  b7 : ℕ
  b8 : ℕ
  b9 : ℕ
  deriving DecidableEq, Repr

/-- The `keys` dictionary of `parse_number` (7-segment byte → character).
The entry `256 → "8."` is kept from the source even though a byte can
never equal 256. -/
def sevenSegKeys : ℕ → Option String
  | 252 => some "0"
  | 253 => some "0."
  | 96 => some "1"
  | 97 => some "1."
  | 218 => some "2"
  | 219 => some "2."
  | 242 => some "3"
  | 243 => some "3."
  | 102 => some "4"
  | 103 => some "4."
  | 182 => some "5"
  | 183 => some "5."
  | 190 => some "6"
  | 191 => some "6."
  | 224 => some "7"
  | 225 => some "7."
  | 254 => some "8"
  | 256 => some "8."
  | 230 => some "9"
  | 231 => some "9."
  | 238 => some "A"
  | 156 => some "C"
  | 122 => some "D"
  | 158 => some "E"
  | 142 => some "F"
  | 140 => some "R"
  | 30 => some "T"
  | 124 => some "U"
  | 28 => some "L"
  | 0 => some ""
  | 2 => some ""
  | _ => none

/-- The bytes scanned by the `for ii in range(4, 9)` loop of
`parse_number`. -/
def digitBytes (f : Frame) : List ℕ :=
  [f.b4, f.b5, f.b6, f.b7, f.b8]

/-- `TTI1604.parse_number`: sign from byte 3 bit 0, then the 7-segment
lookup over bytes 4..8 (unmapped bytes contribute nothing), then an
attempted float conversion with the string kept on failure. -/
def parse_number (f : Frame) : NumOrStr :=
  let sign := if f.b3 &&& (1 <<< 0) ≠ 0 then "-" else ""
  let val := (digitBytes f).foldl
    (fun acc b =>
      match sevenSegKeys b with
      | some s => acc ++ s
      | none => acc) sign
  match pyFloat val with
  | some q => NumOrStr.num q
  | none => NumOrStr.str val

/-- `TTI1604.parse_number_unit`: multiply a numeric value by 1000 when the
measurement type is 5 (resistance) and the range code is not 0. -/
def parse_number_unit (f : Frame) : NumOrStr :=
  let val := parse_number f
  let dmm_range := (f.b1 &&& ((1 <<< 7) - 1)) >>> 4
  let dmm_type := f.b1 &&& ((1 <<< 3) - 1)
  match val with
  | NumOrStr.num q =>
      if dmm_type = 5 ∧ dmm_range ≠ 0 then NumOrStr.num (q * 1000)
      else NumOrStr.num q
  | NumOrStr.str s => NumOrStr.str s

/-- The `range_type_info` dictionary of `parse_data` (keys 1..7). -/
def range_type_info : ℕ → Option String
  | 1 => some "mV"
  | 2 => some "V"
  | 3 => some "mA"
  | 4 => some "A"
  | 5 => some "Ohm"
  | 6 => some "Continuity"
  | 7 => some "Diode Test"
  | _ => none

/-- The `range_info` dictionary of `parse_data` (keys 0..5). -/
def range_info : ℕ → Option String
  | 0 => some "400 Ohm"
  | 1 => some "4 kOhm / 4 Vac / 4 Vdc / 4 mAdc / 1 mAac"
  | 2 => some "40 kOhm / 40 Vac / 40 Vdc / 10 Adc / 10 Aac"
  | 3 => some "400 kOhm / 400 Vac / 400 Vdc / 400 mAdc / 400 mAac / 400 mVdc / 400 mVac"
  | 4 => some "4 MOhm / 750 Vac / 1000 Vdc"
  | 5 => some "40 MOhm"
  | _ => none

/-- The `acdc` dictionary of `parse_data` (keys 0 and 1). -/
def acdcTable : ℕ → Option String
  | 0 => some "DC"
  | 1 => some "AC"
  | _ => none

/-- The dictionary returned by `parse_data` on a frame with presence
byte 13. -/
structure DmmReading where
  type : String
  acdc : String
  range : String
  thold : Bool
  minmax : Bool
  hertz : Bool
  null : Bool
  auto : Bool
  doublebeep : Bool
  autorange : Bool
  contbuzz : Bool
  dispmin : Bool
  dispmax : Bool
  disphold : Bool
  gate10sec : Bool
  value : NumOrStr
  deriving DecidableEq, Repr

/-- Result of `parse_data`: Python returns `False` ("no data") when the
presence byte is not 13, and the state dictionary otherwise. -/
inductive ParseDataResult where
  | noData
  | state (st : DmmReading)
  deriving DecidableEq, Repr

/-- `TTI1604.parse_data`: returns `False` unless byte 0 is 13, then decodes
type/acdc/range through the three lookup tables (a missing key raises
`KeyError`, both in the verbose print block and in the returned dict) and
all flag bits of bytes 2 and 9. -/
def parse_data (f : Frame) : Except PyErr ParseDataResult :=
  if f.b0 ≠ 13 then Except.ok ParseDataResult.noData
  else
    let dmm_type := f.b1 &&& ((1 <<< 3) - 1)
    let dmm_acdc := (f.b1 &&& ((1 <<< 4) - 1)) >>> 3
    let dmm_range := (f.b1 &&& ((1 <<< 7) - 1)) >>> 4
    let thold := f.b2 &&& 1 ≠ 0
    let minmax := f.b2 &&& (1 <<< 2) ≠ 0
    let hertz := f.b2 &&& (1 <<< 4) ≠ 0
    let null := f.b2 &&& (1 <<< 5) ≠ 0
    let auto := f.b2 &&& (1 <<< 6) ≠ 0
    let doublebeep := f.b9 &&& 1 ≠ 0
    let autorange := f.b9 &&& (1 <<< 2) ≠ 0
    let contbuzz := f.b9 &&& (1 <<< 3) ≠ 0
    let dispmin := f.b9 &&& (1 <<< 4) ≠ 0
    let dispmax := f.b9 &&& (1 <<< 5) ≠ 0
    let disphold := f.b9 &&& (1 <<< 6) ≠ 0
    let gate10sec := f.b9 &&& (1 <<< 7) ≠ 0
    let val := parse_number_unit f
    match range_type_info dmm_type, acdcTable dmm_acdc, range_info dmm_range with
    | some t, some a, some r =>
        Except.ok (ParseDataResult.state
          { type := t, acdc := a, range := r,
            thold := decide thold, minmax := decide minmax,
            hertz := decide hertz, null := decide null,
            auto := decide auto, doublebeep := decide doublebeep,
            autorange := decide autorange, contbuzz := decide contbuzz,
            dispmin := decide dispmin, dispmax := decide dispmax,
            disphold := decide disphold, gate10sec := decide gate10sec,
            value := val })
    | _, _, _ => Except.error PyErr.keyError

/-! ### TTI1604 command/response protocol

`send_command` and `read_data` share one `threading.Lock`.  A single call
is modelled against the driver's lock state and one behaviour of the
serial link: each transport operation either succeeds or raises, and
`read(10)` yields the byte list the device produced.  The source has no
`try`/`finally`, so `self._lock.release()` runs only when control reaches
it. -/

/-- Lock state of the driver around one call. -/
structure DmmState where
  lockHeld : Bool
  deriving DecidableEq, Repr

/-- One behaviour of the serial link during a call: whether each of the
buffer resets and the write succeed, and what `read(10)` returns (`none`
models a raised serial error). -/
structure SerialBehavior where
  resetInputOk : Bool
  resetOutputOk : Bool
  writeOk : Bool
  readResult : Option (List ℕ)
  deriving DecidableEq, Repr

/-- Python `bytes.decode()` of a single command byte: the code point of
the resulting one-character string, or `UnicodeDecodeError` for a
non-ASCII byte. -/
def pyDecodeByte (b : ℕ) : Except PyErr ℕ :=
  if b < 128 then Except.ok b else Except.error PyErr.unicodeDecodeError

/-- `TTI1604.send_command` for a single-byte command `cmd`.  `acquireOk`
says whether `self._lock.acquire(timeout=timeout)` succeeded.  Returns the
call's outcome together with the driver's lock state when the call ends
(by return or by a raised error). -/
def send_command (cmd : ℕ) (acquireOk : Bool) (ser : SerialBehavior)
    (st : DmmState) : Except PyErr Bool × DmmState :=
  if ¬acquireOk then
    (Except.error PyErr.timeoutError, st)
  else
    let st := { st with lockHeld := true }
    if ¬ser.resetInputOk then (Except.error PyErr.serialError, st)
    else if ¬ser.resetOutputOk then (Except.error PyErr.serialError, st)
    else if ¬ser.writeOk then (Except.error PyErr.serialError, st)
    else
      match ser.readResult with
      | none => (Except.error PyErr.serialError, st)
      | some ret =>
          match pyDecodeByte cmd with
          | Except.error e => (Except.error e, st)
          | Except.ok c =>
              -- `if len(ret) == 1: ret = chr(ret[0])`; a bytes value never
              -- equals a str, so only the single-byte case can compare
              -- true, and the one-character strings `chr(ret[0])` and
              -- `command.decode()` are equal iff their code points are
              let retval :=
                match ret with
                | [b] => decide (b = c)
                | _ => false
              (Except.ok retval, { st with lockHeld := false })

/-- `TTI1604.read_data`: connection check, lock acquire, buffer resets,
`read(10)`, release, return. -/
def read_data (connected : Bool) (acquireOk : Bool) (ser : SerialBehavior)
    (st : DmmState) : Except PyErr (List ℕ) × DmmState :=
  if ¬connected then (Except.error PyErr.connectionError, st)
  else if ¬acquireOk then (Except.error PyErr.timeoutError, st)
  else
    let st := { st with lockHeld := true }
    if ¬ser.resetInputOk then (Except.error PyErr.serialError, st)
    else if ¬ser.resetOutputOk then (Except.error PyErr.serialError, st)
    else
      match ser.readResult with
      | none => (Except.error PyErr.serialError, st)
      | some value => (Except.ok value, { st with lockHeld := false })

/-- The fixed keypress command set of the TTI1604 (bytes of the documented
keys `a b c d e f g i j k l m n u v`). -/
def keypressCommands : List ℕ :=
  [97, 98, 99, 100, 101, 102, 103, 105, 106, 107, 108, 109, 110, 117, 118]

/-! ### TektronixScope (`scope.py`)

The instrument session is an external collaborator: queries (`ask`,
`ask_raw`) always answer, and the answers are the typed fields of
`Instrument` (the driver converts the textual responses with `float`/
`int`, which the model absorbs into the field types).  Every session
interaction is recorded as a `ScopeEvent`.

Method calls written `self.name(...)` in the source go through Python
attribute lookup on the class.  `tektronixScopeMethods` lists the methods
the class actually defines; looking up a missing name raises
`AttributeError`.  The class defines `_write` but no `write`, which
matters because most setters call the unqualified `self.write(...)`. -/

/-- One interaction with the instrument session. -/
inductive ScopeEvent where
  | write (cmd : String)
  | ask (cmd : String)
  | askRaw (cmd : String)
  deriving DecidableEq, Repr

/-- Instance attributes the driver caches across calls.  `none` models an
attribute that has never been assigned (reading it raises
`AttributeError`); `firstReadDefined` models `hasattr(self, "first_read")`
and `dicoLoaded` models `hasattr(self, "dico")`. -/
structure ScopeCache where
  firstReadDefined : Bool
  first_read : Bool
  dicoLoaded : Bool
  dataStart : Option ℤ
  dataStop : Option ℤ
  offset : Option ℚ
  scale : Option ℚ
  x_0 : Option ℚ
  delta_x : Option ℚ
  deriving DecidableEq, Repr

/-- Behaviour of the instrument during one driver call: the responses the
session gives to each query the driver can issue. -/
structure Instrument where
  has4 : Bool
  selected : String → Bool
  dataStartQ : ℤ
  dataStopQ : ℤ
  recordLength : ℤ
  xZero : ℚ
  xIncr : ℚ
  yOff : ℚ
  yMult : ℚ
  curve : List ℕ

/-- A channel argument: an integer, a string, or Python `None`. -/
inductive ChanArg where
  | num (i : ℤ)
  | str (s : String)
  | none
  deriving DecidableEq, Repr

/-- The method names defined by `class TektronixScope` in `scope.py`. -/
def tektronixScopeMethods : List String :=
  ["__init__", "_write", "ask", "ask_raw", "start_acq", "stop_acq",
   "get_horizontal_scale", "set_horizontal_scale", "_load_setup",
   "get_setup_dict", "number_of_channel", "channel_name",
   "is_channel_selected", "get_channel_offset", "get_channel_position",
   "get_vertical_scale", "set_impedance", "get_impedance", "set_coupling",
   "get_coupling", "set_data_source", "set_data_start", "get_data_start",
   "get_horizontal_record_length", "set_horizontal_record_length",
   "set_data_stop", "get_data_stop",
   "get_out_waveform_horizontal_sampling_interval",
   "get_out_waveform_horizontal_zero",
   "get_out_waveform_vertical_scale_factor",
   "get_out_waveform_vertical_position", "read_data_one_channel"]

/-- An unqualified `self.write(cmd)` call: attribute lookup of `"write"`
on the class, then one session write.  The lookup fails, since the class
only defines `_write`. -/
def callWrite (cmd : String) : Except PyErr ScopeEvent :=
  if tektronixScopeMethods.contains "write" then Except.ok (ScopeEvent.write cmd)
  else Except.error PyErr.attributeError

/-- A `self._write(cmd)` call: attribute lookup of `"_write"`, then one
session write. -/
def callPrivateWrite (cmd : String) : Except PyErr ScopeEvent :=
  if tektronixScopeMethods.contains "_write" then Except.ok (ScopeEvent.write cmd)
  else Except.error PyErr.attributeError

/-- `TektronixScope.start_acq` uses the private `_write`. -/
def start_acq : Except PyErr (List ScopeEvent) :=
  match callPrivateWrite "ACQ:STATE RUN" with
  | Except.ok ev => Except.ok [ev]
  | Except.error e => Except.error e

/-- `get_setup_dict`: loads the settings dump once (`hasattr(self,
"dico")`), issuing the `SET?` query on first use. -/
def get_setup_dict (c : ScopeCache) : List ScopeEvent × ScopeCache :=
  if c.dicoLoaded then ([], c)
  else ([ScopeEvent.ask "SET?"], { c with dicoLoaded := true })

/-- `number_of_channel`: 4 when the `:CH4:SCA` key is present in the
settings dump, else 2. -/
def number_of_channel (c : ScopeCache) (ins : Instrument) :
    List ScopeEvent × ScopeCache × ℕ :=
  let (t, c1) := get_setup_dict c
  (t, c1, if ins.has4 then 4 else 2)

/-- The `channel_list` of `channel_name`: `["CH1", ..., "CHn"]`. -/
def channelList (nMax : ℕ) : List String :=
  (List.range nMax).map (fun i => "CH" ++ toString (i + 1))

/-- The `channel_listb` of `channel_name`: `["1", ..., "n"]`. -/
def channelListB (nMax : ℕ) : List String :=
  (List.range nMax).map (fun i => toString (i + 1))

/-- `TektronixScope.channel_name`: normalize an integer, digit string or
`CHi` string against the detected channel count.  An integer is only
checked against the upper bound, as in the source. -/
def channel_name (c : ScopeCache) (ins : Instrument) (name : ChanArg) :
    List ScopeEvent × ScopeCache × Except PyErr String :=
  let (t, c1, nMax) := number_of_channel c ins
  match name with
  | ChanArg.num i =>
      if i > (nMax : ℤ) then (t, c1, Except.error PyErr.tekError)
      else (t, c1, Except.ok ("CH" ++ toString i))
  | ChanArg.str s =>
      if (channelList nMax).contains s then (t, c1, Except.ok s)
      else if (channelListB nMax).contains s then (t, c1, Except.ok ("CH" ++ s))
      else (t, c1, Except.error PyErr.tekError)
  | ChanArg.none => (t, c1, Except.error PyErr.tekError)

/-- `TektronixScope.is_channel_selected`: normalize the channel (twice, as
in the source), then compare the `SEL:CHi?` response with `"1"`. -/
def is_channel_selected (c : ScopeCache) (ins : Instrument) (channel : ChanArg) :
    List ScopeEvent × ScopeCache × Except PyErr Bool :=
  let (t1, c1, r1) := channel_name c ins channel
  match r1 with
  | Except.error e => (t1, c1, Except.error e)
  | Except.ok ch =>
      let (t2, c2, r2) := channel_name c1 ins (ChanArg.str ch)
      match r2 with
      | Except.error e => (t1 ++ t2, c2, Except.error e)
      | Except.ok ch2 =>
          (t1 ++ t2 ++ [ScopeEvent.ask ("SEL:" ++ ch2 ++ "?")], c2,
            Except.ok (ins.selected ch2))

/-- A `value` argument of `set_coupling`/`set_impedance`: a string or an
integer. -/
inductive PyVal where
  | s (v : String)
  | i (n : ℤ)
  deriving DecidableEq, Repr

/-- Python `str.lower()` over the character list. -/
def pyLower (s : String) : String := String.mk (s.data.map Char.toLower)

/-- The permitted coupling strings. -/
def couplingListeString : List String := ["AC", "DC", "GND"]

/-- `TektronixScope.set_coupling`.  On an invalid value the source builds
the error message with `"... %s ... %s" % liste_string`; `%` applied to a
list supplies a single argument for two placeholders, so the raise itself
fails with `TypeError`.  On a valid value the unqualified `self.write`
lookup decides what happens. -/
def set_coupling (c : ScopeCache) (ins : Instrument) (channel : ChanArg)
    (value : PyVal) : List ScopeEvent × ScopeCache × Except PyErr Unit :=
  let (t1, c1, r1) := channel_name c ins channel
  match r1 with
  | Except.error e => (t1, c1, Except.error e)
  | Except.ok ch =>
      match value with
      | PyVal.s v =>
          if ¬(couplingListeString.map pyLower).contains (pyLower v) then
            (t1, c1, Except.error PyErr.typeError)
          else
            let (t2, c2, r2) := channel_name c1 ins (ChanArg.str ch)
            match r2 with
            | Except.error e => (t1 ++ t2, c2, Except.error e)
            | Except.ok ch2 =>
                match callWrite (ch2 ++ ":COUPling " ++ v) with
                | Except.ok ev => (t1 ++ t2 ++ [ev], c2, Except.ok ())
                | Except.error e => (t1 ++ t2, c2, Except.error e)
      | PyVal.i _ => (t1, c1, Except.error PyErr.typeError)

/-- The impedance synonym strings accepted by `set_impedance`. -/
def impedanceListeString : List String :=
  ["FIF", "FIFty", "SEVENTYF", "SEVENTYFive", "MEG", "50", "75", "1.00E+06"]

/-- The numeric impedance values accepted by `set_impedance`. -/
def impedanceListeValue : List ℤ := [50, 75, 1000000]

/-- `TektronixScope.set_impedance`: a string value is checked (case
insensitively) against the synonym set and sent unchanged; a numeric value
is checked against `{50, 75, 1e6}` and rendered (`str(value)` below 100,
`"1.00E+06"` otherwise).  As in `set_coupling`, the invalid-value raises
themselves fail with `TypeError`, and the final unqualified `self.write`
lookup decides the valid path. -/
def set_impedance (c : ScopeCache) (ins : Instrument) (channel : ChanArg)
    (value : PyVal) : List ScopeEvent × ScopeCache × Except PyErr Unit :=
  let (t1, c1, r1) := channel_name c ins channel
  match r1 with
  | Except.error e => (t1, c1, Except.error e)
  | Except.ok ch =>
      let valueStr : Except PyErr String :=
        match value with
        | PyVal.s v =>
            if ¬(impedanceListeString.map pyLower).contains (pyLower v) then
              Except.error PyErr.typeError
            else Except.ok v
        | PyVal.i n =>
            if ¬impedanceListeValue.contains n then Except.error PyErr.typeError
            else Except.ok (if n < 100 then toString n else "1.00E+06")
      match valueStr with
      | Except.error e => (t1, c1, Except.error e)
      | Except.ok v =>
          let (t2, c2, r2) := channel_name c1 ins (ChanArg.str ch)
          match r2 with
          | Except.error e => (t1 ++ t2, c2, Except.error e)
          | Except.ok ch2 =>
              match callWrite (ch2 ++ ":IMPedance " ++ v) with
              | Except.ok ev => (t1 ++ t2 ++ [ev], c2, Except.ok ())
              | Except.error e => (t1 ++ t2, c2, Except.error e)

/-! ### Acquisition window and curve processing -/

/-- Python `int(q)` on a float: truncation toward zero. -/
def pyTrunc (q : ℚ) : ℤ :=
  if 0 ≤ q then ⌊q⌋ else ⌈q⌉

/-- The window conversion of `read_data_one_channel` (lines 345-346):
`data_start = int((t0 - x_0) / delta_x) + 1` and
`data_stop = int((t0 + DeltaT - x_0) / delta_x)`. -/
def computeWindow (t0 DeltaT x_0 delta_x : ℚ) : ℤ × ℤ :=
  (pyTrunc ((t0 - x_0) / delta_x) + 1, pyTrunc ((t0 + DeltaT - x_0) / delta_x))

/-- `np.arange(a, b)` on integers. -/
def npArange (a b : ℤ) : List ℤ :=
  (List.range (b - a).toNat).map (fun (i : ℕ) => a + (i : ℤ))

/-- The time axis `self.x_0 + np.arange(self.data_start - 1,
self.data_stop) * self.delta_x`. -/
def curveXAxis (x_0 delta_x : ℚ) (dataStart dataStop : ℤ) : List ℚ :=
  (npArange (dataStart - 1) dataStop).map (fun (k : ℤ) => x_0 + (k : ℚ) * delta_x)

/-- One big-endian signed 16-bit sample from two bytes. -/
def int16OfBytes (hi lo : ℕ) : ℤ :=
  let u := (hi % 256) * 256 + lo % 256
  if u < 32768 then (u : ℤ) else (u : ℤ) - 65536

/-- Decode consecutive byte pairs as big-endian signed 16-bit samples. -/
def decodeInt16BE : List ℕ → List ℤ
  | hi :: lo :: rest => int16OfBytes hi lo :: decodeInt16BE rest
  | _ => []

/-- `np.frombuffer(buffer, dtype=">i2", offset=int(buffer[1]) + 2)`:
index error on a too-short buffer, numpy error when the remaining length
is not a whole number of samples, otherwise the decoded samples. -/
def curveSamples (buffer : List ℕ) : Except PyErr (List ℤ) :=
  match buffer.get? 1 with
  | Option.none => Except.error PyErr.indexError
  | Option.some b1 =>
      let off := b1 + 2
      if buffer.length < off ∨ (buffer.length - off) % 2 ≠ 0 then
        Except.error PyErr.npError
      else Except.ok (decodeInt16BE (buffer.drop off))

/-- The rescaling `Y = (res - self.offset) * self.scale`. -/
def curveY (offset scale : ℚ) (res : List ℤ) : List ℚ :=
  res.map (fun (r : ℤ) => ((r : ℚ) - offset) * scale)

/-- What `read_data_one_channel` returns: `(X_axis, Y)` or just `Y`. -/
inductive RDOCOut where
  | xy (xAxis yValues : List ℚ)
  | yOnly (yValues : List ℚ)
  deriving DecidableEq, Repr

/-- The tail of `read_data_one_channel` (lines 376-390): build the time
axis, decode the curve buffer, rescale, and shape the return value. -/
def curveTail (offset scale x_0 delta_x : ℚ) (dataStart dataStop : ℤ)
    (buffer : List ℕ) (x_axis_out : Bool) : Except PyErr RDOCOut :=
  let xAxis := curveXAxis x_0 delta_x dataStart dataStop
  match curveSamples buffer with
  | Except.error e => Except.error e
  | Except.ok res =>
      let y := curveY offset scale res
      Except.ok (if x_axis_out then RDOCOut.xy xAxis y else RDOCOut.yOnly y)

/-- `TektronixScope.set_data_start`: the guard
`isinstance(data_start, (int, None))` always raises `TypeError`, because
`None` is not a type, so the method never reaches its write. -/
def set_data_start (dataStart : Option ℤ) : Except PyErr ScopeEvent :=
  Except.error PyErr.typeError

/-- `TektronixScope.set_data_stop`: query the record length when the
argument is `None`, then write `DATA:STOP` through the unqualified
`self.write`.  Returns the queries issued and the outcome of the write. -/
def set_data_stop (ins : Instrument) (dataStop : Option ℤ) :
    List ScopeEvent × Except PyErr ScopeEvent :=
  match dataStop with
  | Option.none =>
      ([ScopeEvent.ask "horizontal:recordlength?"],
        callWrite ("DATA:STOP " ++ toString ins.recordLength))
  | Option.some v => ([], callWrite ("DATA:STOP " ++ toString v))

/-- `TektronixScope.set_data_source`: normalize the channel then write
`DAT:SOUR` through the unqualified `self.write`. -/
def set_data_source (c : ScopeCache) (ins : Instrument) (name : ChanArg) :
    List ScopeEvent × ScopeCache × Except PyErr ScopeEvent :=
  let (t, c1, r) := channel_name c ins name
  match r with
  | Except.error e => (t, c1, Except.error e)
  | Except.ok nm => (t, c1, callWrite ("DAT:SOUR " ++ nm))

/-- Result of one `read_data_one_channel` call: the session interactions
issued before the call ended, the driver attributes when it ended, and the
outcome. -/
structure RDOCResult where
  trace : List ScopeEvent
  cache : ScopeCache
  out : Except PyErr RDOCOut

/-- The body of `read_data_one_channel` after the booster normalization
and the `self.first_read = False` assignment, with `bEff` the normalized
booster flag. -/
def rdocCore (channel : ChanArg) (dataStart dataStop : Option ℤ)
    (x_axis_out : Bool) (t0 DeltaT : Option ℚ) (bEff : Bool)
    (c : ScopeCache) (ins : Instrument) : RDOCResult :=
  -- `if not booster:` window block
  let windowStep : List ScopeEvent × Except PyErr (Option ℤ × Option ℤ) :=
    if ¬bEff then
      if t0.isSome || DeltaT.isSome then
        if dataStop.isNone && dataStart.isNone then
          let t := [ScopeEvent.ask "WFMO:XZERO?", ScopeEvent.ask "WFMO:XIN?"]
          let x_0 := ins.xZero
          let delta_x := ins.xIncr
          match t0 with
          | Option.none => (t, Except.error PyErr.typeError)
          | Option.some tv =>
              if delta_x = 0 then (t, Except.error PyErr.zeroDivisionError)
              else
                match DeltaT with
                | Option.none => (t, Except.error PyErr.typeError)
                | Option.some dv =>
                    let w := computeWindow tv dv x_0 delta_x
                    (t, Except.ok (Option.some w.1, Option.some w.2))
        else ([], Except.error PyErr.tekError)
      else ([], Except.ok (dataStart, dataStop))
    else ([], Except.ok (dataStart, dataStop))
  match windowStep with
  | (t0s, Except.error e) => ⟨t0s, c, Except.error e⟩
  | (t0s, Except.ok (ds, dstop)) =>
      -- push and re-read the window, still `if not booster:`
      let pushStep : List ScopeEvent × ScopeCache × Except PyErr Unit :=
        if ¬bEff then
          match ds with
          | Option.some _ =>
              match set_data_start ds with
              | Except.error e => ([], c, Except.error e)
              | Except.ok ev => ([ev], c, Except.ok ())
          | Option.none => ([], c, Except.ok ())
        else ([], c, Except.ok ())
      match pushStep with
      | (t1s, c1, Except.error e) => ⟨t0s ++ t1s, c1, Except.error e⟩
      | (t1s, c1, Except.ok _) =>
          let pushStop : List ScopeEvent × Except PyErr Unit :=
            if ¬bEff then
              match dstop with
              | Option.some _ =>
                  match set_data_stop ins dstop with
                  | (tq, Except.error e) => (tq, Except.error e)
                  | (tq, Except.ok ev) => (tq ++ [ev], Except.ok ())
              | Option.none => ([], Except.ok ())
            else ([], Except.ok ())
          match pushStop with
          | (t2s, Except.error e) => ⟨t0s ++ t1s ++ t2s, c1, Except.error e⟩
          | (t2s, Except.ok _) =>
              let (t3s, c3) :=
                if ¬bEff then
                  ([ScopeEvent.ask "DATA:START?", ScopeEvent.ask "DATA:STOP?"],
                    { c1 with dataStart := Option.some ins.dataStartQ,
                              dataStop := Option.some ins.dataStopQ })
                else ([], c1)
              -- `if channel is not None: self.set_data_source(channel)`
              let sourceStep : List ScopeEvent × ScopeCache × Except PyErr Unit :=
                match channel with
                | ChanArg.none => ([], c3, Except.ok ())
                | _ =>
                    match set_data_source c3 ins channel with
                    | (t, c4, Except.error e) => (t, c4, Except.error e)
                    | (t, c4, Except.ok ev) => (t ++ [ev], c4, Except.ok ())
              match sourceStep with
              | (t4s, c4, Except.error e) =>
                  ⟨t0s ++ t1s ++ t2s ++ t3s ++ t4s, c4, Except.error e⟩
              | (t4s, c4, Except.ok _) =>
                  -- `if not booster:` channel-enabled check
                  let checkStep : List ScopeEvent × ScopeCache × Except PyErr Unit :=
                    if ¬bEff then
                      match is_channel_selected c4 ins channel with
                      | (t, c5, Except.error e) => (t, c5, Except.error e)
                      | (t, c5, Except.ok sel) =>
                          if ¬sel then (t, c5, Except.error PyErr.tekError)
                          else (t, c5, Except.ok ())
                    else ([], c4, Except.ok ())
                  match checkStep with
                  | (t5s, c5, Except.error e) =>
                      ⟨t0s ++ t1s ++ t2s ++ t3s ++ t4s ++ t5s, c5, Except.error e⟩
                  | (t5s, c5, Except.ok _) =>
                      -- `if not booster:` binary mode + calibration re-read
                      let calStep : List ScopeEvent × ScopeCache × Except PyErr Unit :=
                        if ¬bEff then
                          match callWrite "DATA:ENCDG RIB" with
                          | Except.error e => ([], c5, Except.error e)
                          | Except.ok ev1 =>
                              match callWrite "WFMO:BYTE_NR 2" with
                              | Except.error e => ([ev1], c5, Except.error e)
                              | Except.ok ev2 =>
                                  ([ev1, ev2, ScopeEvent.ask "WFMO:YOFf?",
                                    ScopeEvent.ask "WFMO:YMUlt?",
                                    ScopeEvent.ask "WFMO:XZERO?",
                                    ScopeEvent.ask "WFMO:XIN?"],
                                    { c5 with offset := Option.some ins.yOff,
                                              scale := Option.some ins.yMult,
                                              x_0 := Option.some ins.xZero,
                                              delta_x := Option.some ins.xIncr },
                                    Except.ok ())
                        else ([], c5, Except.ok ())
                      match calStep with
                      | (t6s, c6, Except.error e) =>
                          ⟨t0s ++ t1s ++ t2s ++ t3s ++ t4s ++ t5s ++ t6s, c6,
                            Except.error e⟩
                      | (t6s, c6, Except.ok _) =>
                          let trace := t0s ++ t1s ++ t2s ++ t3s ++ t4s ++ t5s ++ t6s
                          -- the X-axis line reads four cached attributes,
                          -- then `CURVE?` is queried, and the Y line reads
                          -- `self.offset` and `self.scale`
                          match c6.x_0, c6.dataStart, c6.dataStop, c6.delta_x with
                          | Option.some x0v, Option.some dsv, Option.some dstopv,
                            Option.some dxv =>
                              let trace := trace ++ [ScopeEvent.askRaw "CURVE?"]
                              match c6.offset, c6.scale with
                              | Option.some offv, Option.some scv =>
                                  ⟨trace, c6,
                                    curveTail offv scv x0v dxv dsv dstopv ins.curve
                                      x_axis_out⟩
                              | _, _ =>
                                  -- `frombuffer` runs before the Y line
                                  -- reads the missing attribute
                                  match curveSamples ins.curve with
                                  | Except.error e => ⟨trace, c6, Except.error e⟩
                                  | Except.ok _ =>
                                      ⟨trace, c6, Except.error PyErr.attributeError⟩
                          | _, _, _, _ => ⟨trace, c6, Except.error PyErr.attributeError⟩

/-- `TektronixScope.read_data_one_channel`: normalize the booster flag
(forced off on the first call, when `first_read` is not yet defined, or
when `first_read` is still true), record `self.first_read = False`, and
run the body. -/
def read_data_one_channel (channel : ChanArg) (dataStart dataStop : Option ℤ)
    (x_axis_out : Bool) (t0 DeltaT : Option ℚ) (booster : Bool)
    (c : ScopeCache) (ins : Instrument) : RDOCResult :=
  let bEff :=
    if booster then
      if ¬c.firstReadDefined then false
      else if c.first_read then false
      else booster
    else booster
  rdocCore channel dataStart dataStop x_axis_out t0 DeltaT bEff
    { c with firstReadDefined := true, first_read := false } ins

/-! ### DeltaPSU (`psu.py`)

`__init__` assigns `_port`, `_baudrate`, `_timeout`, `_connect_on_init`,
`_lock` and `_serial`; `connect` reassigns `_serial`.  No code ever
assigns an attribute named `serial`, yet `is_connected` and the response
wait/read of `_send_and_receive` use `self.serial`. -/

/-- The instance attributes a `DeltaPSU` object carries. -/
def deltaPSUAttrs : List String :=
  ["_port", "_baudrate", "_timeout", "_connect_on_init", "_lock", "_serial"]

/-- State of the PSU transport: whether the serial link held in `_serial`
is open. -/
structure PSUState where
  serialOpen : Bool
  deriving DecidableEq, Repr

/-- Behaviour of the PSU transport during one call. -/
structure PSUSerial where
  acquireOk : Bool
  responseArrives : Bool
  responseLine : String
  deriving DecidableEq, Repr

/-- `DeltaPSU.is_connected`: `self.serial.is_open` with `AttributeError`
mapped to `False`.  The attribute `serial` is never assigned, so the
lookup always falls into the `except` arm. -/
def psu_is_connected (st : PSUState) : Bool :=
  if deltaPSUAttrs.contains "serial" then st.serialOpen else false

/-- `DeltaPSU._match_errors`: map an `err: <code> <message>` line to the
exception the method raises. -/
def psu_match_errors (response : String) : PyErr :=
  let parts := response.splitOn " "
  match parts.get? 1 with
  | Option.none => PyErr.indexError
  | Option.some codeStr =>
      match codeStr.toInt? with
      | Option.none => PyErr.valueError
      | Option.some 0 => PyErr.unknownCommandError
      | Option.some 1 => PyErr.valueOutOfBoundsError
      | Option.some 2 => PyErr.currentLimitError
      | Option.some 3 => PyErr.runtimeError
      | Option.some _ => PyErr.runtimeError

/-- `DeltaPSU._send_and_receive`: connection check, lock, write, wait for
`self.serial.in_waiting`, read and classify the response line (`None` for
a literal `OK`).  The first check consults `psu_is_connected`, which can
never be true, so the rest of the body is unreachable; it is still
modelled: the wait loop itself reads the missing `serial` attribute. -/
def psu_send_and_receive (command : String) (st : PSUState) (ser : PSUSerial) :
    Except PyErr (Option String) :=
  if ¬psu_is_connected st then Except.error PyErr.connectionError
  else if ¬ser.acquireOk then Except.error PyErr.timeoutError
  else if ¬deltaPSUAttrs.contains "serial" then Except.error PyErr.attributeError
  else if ¬ser.responseArrives then Except.error PyErr.timeoutError
  else
    let response := ser.responseLine
    if response.startsWith "err:" then Except.error (psu_match_errors response)
    else if response = "OK" then Except.ok Option.none
    else Except.ok (Option.some response)

/-- Python `response / 1000` where `response` is the `str`-or-`None`
result of `_send_and_receive`: `/` is unsupported between `str` and `int`
and between `NoneType` and `int`, so the expression raises `TypeError`
for every possible `response`. -/
def pyDivResponse (response : Option String) (n : ℤ) : Except PyErr ℚ :=
  Except.error PyErr.typeError

/-- `DeltaPSU.get_voltage`: `float(self._send_and_receive("gv") / 1000)`. -/
def get_voltage (st : PSUState) (ser : PSUSerial) : Except PyErr ℚ :=
  match psu_send_and_receive "gv" st ser with
  | Except.error e => Except.error e
  | Except.ok resp =>
      match pyDivResponse resp 1000 with
      | Except.error e => Except.error e
      | Except.ok q => Except.ok q

/-- `DeltaPSU.get_current`: `float(self._send_and_receive("gc") / 1000)`. -/
def get_current (st : PSUState) (ser : PSUSerial) : Except PyErr ℚ :=
  match psu_send_and_receive "gc" st ser with
  | Except.error e => Except.error e
  | Except.ok resp =>
      match pyDivResponse resp 1000 with
      | Except.error e => Except.error e
      | Except.ok q => Except.ok q

/-! ### PinRegister (`piplate/base.py`)

Four category lists guarded by a mutex; registration appends after a
range check and a duplicate check, unregistration is Python
`list.remove` (first occurrence, `ValueError` when absent). -/

structure PinRegister where
  digital_inputs : List ℤ
  digital_outputs : List ℤ
  analog_inputs : List ℤ
  analog_outputs : List ℤ
  deriving DecidableEq, Repr

/-- A fresh register (`__init__`). -/
def emptyPinRegister : PinRegister := ⟨[], [], [], []⟩

/-- `PinRegister.register_digital_input` (`0 <= pin <= 7`). -/
def register_digital_input (pin : ℤ) (r : PinRegister) : Except PyErr PinRegister :=
  if ¬(0 ≤ pin ∧ pin ≤ 7) then Except.error PyErr.valueError
  else if pin ∈ r.digital_inputs then Except.error PyErr.valueError
  else Except.ok { r with digital_inputs := r.digital_inputs ++ [pin] }

/-- `PinRegister.register_digital_output` (`0 <= pin <= 7`). -/
def register_digital_output (pin : ℤ) (r : PinRegister) : Except PyErr PinRegister :=
  if ¬(0 ≤ pin ∧ pin ≤ 7) then Except.error PyErr.valueError
  else if pin ∈ r.digital_outputs then Except.error PyErr.valueError
  else Except.ok { r with digital_outputs := r.digital_outputs ++ [pin] }

/-- `PinRegister.register_analog_input` (`0 <= pin <= 7`). -/
def register_analog_input (pin : ℤ) (r : PinRegister) : Except PyErr PinRegister :=
  if ¬(0 ≤ pin ∧ pin ≤ 7) then Except.error PyErr.valueError
  else if pin ∈ r.analog_inputs then Except.error PyErr.valueError
  else Except.ok { r with analog_inputs := r.analog_inputs ++ [pin] }

/-- `PinRegister.register_analog_output` (`1 <= pin <= 3`). -/
def register_analog_output (pin : ℤ) (r : PinRegister) : Except PyErr PinRegister :=
  if ¬(1 ≤ pin ∧ pin ≤ 3) then Except.error PyErr.valueError
  else if pin ∈ r.analog_outputs then Except.error PyErr.valueError
  else Except.ok { r with analog_outputs := r.analog_outputs ++ [pin] }

/-- `PinRegister.unregister_digital_input` (`list.remove`). -/
def unregister_digital_input (pin : ℤ) (r : PinRegister) : Except PyErr PinRegister :=
  if pin ∈ r.digital_inputs then
    Except.ok { r with digital_inputs := r.digital_inputs.erase pin }
  else Except.error PyErr.valueError

/-- `PinRegister.unregister_digital_output`. -/
def unregister_digital_output (pin : ℤ) (r : PinRegister) : Except PyErr PinRegister :=
  if pin ∈ r.digital_outputs then
    Except.ok { r with digital_outputs := r.digital_outputs.erase pin }
  else Except.error PyErr.valueError

/-- `PinRegister.unregister_analog_input`. -/
def unregister_analog_input (pin : ℤ) (r : PinRegister) : Except PyErr PinRegister :=
  if pin ∈ r.analog_inputs then
    Except.ok { r with analog_inputs := r.analog_inputs.erase pin }
  else Except.error PyErr.valueError

/-- `PinRegister.unregister_analog_output`. -/
def unregister_analog_output (pin : ℤ) (r : PinRegister) : Except PyErr PinRegister :=
  if pin ∈ r.analog_outputs then
    Except.ok { r with analog_outputs := r.analog_outputs.erase pin }
  else Except.error PyErr.valueError

/-- The four pin categories. -/
inductive PinCat where
  | digitalIn
  | digitalOut
  | analogIn
  | analogOut
  deriving DecidableEq, Repr

/-- The list a category keeps its claimed pins in. -/
def catPins (c : PinCat) (r : PinRegister) : List ℤ :=
  match c with
  | PinCat.digitalIn => r.digital_inputs
  | PinCat.digitalOut => r.digital_outputs
  | PinCat.analogIn => r.analog_inputs
  | PinCat.analogOut => r.analog_outputs

/-- The fixed valid range of a category. -/
def catRange (c : PinCat) : ℤ × ℤ :=
  match c with
  | PinCat.digitalIn => (0, 7)
  | PinCat.digitalOut => (0, 7)
  | PinCat.analogIn => (0, 7)
  | PinCat.analogOut => (1, 3)

/-- Dispatch to the category's register method. -/
def registerPin (c : PinCat) (pin : ℤ) (r : PinRegister) : Except PyErr PinRegister :=
  match c with
  | PinCat.digitalIn => register_digital_input pin r
  | PinCat.digitalOut => register_digital_output pin r
  | PinCat.analogIn => register_analog_input pin r
  | PinCat.analogOut => register_analog_output pin r

/-- Dispatch to the category's unregister method. -/
def unregisterPin (c : PinCat) (pin : ℤ) (r : PinRegister) : Except PyErr PinRegister :=
  match c with
  | PinCat.digitalIn => unregister_digital_input pin r
  | PinCat.digitalOut => unregister_digital_output pin r
  | PinCat.analogIn => unregister_analog_input pin r
  | PinCat.analogOut => unregister_analog_output pin r

/-- One registry operation requested by a caller. -/
inductive RegOp where
  | reg (c : PinCat) (pin : ℤ)
  | unreg (c : PinCat) (pin : ℤ)
  deriving DecidableEq, Repr

/-- Run one operation; a raised `ValueError` leaves the register as it
was (every raise in the source happens before the mutation). -/
def applyRegOp (r : PinRegister) (op : RegOp) : PinRegister :=
  match op with
  | RegOp.reg c pin =>
      match registerPin c pin r with
      | Except.ok r2 => r2
      | Except.error _ => r
  | RegOp.unreg c pin =>
      match unregisterPin c pin r with
      | Except.ok r2 => r2
      | Except.error _ => r

/-- Run a sequence of register/unregister operations. -/
def runRegOps (ops : List RegOp) (r : PinRegister) : PinRegister :=
  ops.foldl applyRegOp r

/-- The registry invariant: every category's list has no duplicates and
holds only pins inside the category's fixed range. -/
def pinRegisterInv (r : PinRegister) : Prop :=
  ∀ c : PinCat, (catPins c r).Nodup ∧
    ∀ p ∈ catPins c r, (catRange c).1 ≤ p ∧ p ≤ (catRange c).2

/-! ### Concrete fixtures used by witnesses and counterexamples -/

/-- A frame with presence byte 13 and all other bytes zero (its type code
is 0, a key absent from `range_type_info`). -/
def frameTypeZero : Frame := ⟨13, 0, 0, 0, 0, 0, 0, 0, 0, 0⟩

/-- A frame with presence byte 13, type code 5 (`Ohm`), range 0, DC, and
the display showing `0`. -/
def frameOhm : Frame := ⟨13, 5, 0, 0, 252, 0, 0, 0, 0, 0⟩

/-- A frame whose presence byte is not 13. -/
def frameNoData : Frame := ⟨0, 5, 0, 0, 252, 0, 0, 0, 0, 0⟩

/-- A serial behaviour whose write raises. -/
def serWriteFails : SerialBehavior := ⟨true, true, false, Option.some []⟩

/-- A serial behaviour whose read raises. -/
def serReadFails : SerialBehavior := ⟨true, true, true, Option.none⟩

/-- A serial behaviour that answers `ret` to the 10-byte read. -/
def serEchoes (ret : List ℕ) : SerialBehavior := ⟨true, true, true, Option.some ret⟩

/-- A two-channel instrument with every channel selected. -/
def insTwoCh : Instrument :=
  { has4 := false, selected := fun _ => true, dataStartQ := 1,
    dataStopQ := 2500, recordLength := 2500, xZero := 0, xIncr := 1,
    yOff := 0, yMult := 1, curve := [] }

/-- The two-channel instrument with a curve buffer: header bytes `# 0`,
then two big-endian samples `0x0800 = 2048`. -/
def insCurve : Instrument :=
  { insTwoCh with curve := [35, 0, 8, 0, 8, 0] }

/-- The attribute state of a freshly constructed `TektronixScope`. -/
def freshScopeCache : ScopeCache :=
  { firstReadDefined := false, first_read := false, dicoLoaded := false,
    dataStart := Option.none, dataStop := Option.none,
    offset := Option.none, scale := Option.none,
    x_0 := Option.none, delta_x := Option.none }

/-- A cache as left by a (hypothetical) completed acquisition, with all
calibration attributes populated. -/
def primedScopeCache : ScopeCache :=
  { firstReadDefined := true, first_read := false, dicoLoaded := true,
    dataStart := Option.some 1, dataStop := Option.some 2,
    offset := Option.some 2048, scale := Option.some (1/100),
    x_0 := Option.some 0, delta_x := Option.some 1 }

/-! ### Theorems -/

/-- C1 (counterexample): the frame `0d 00 00 00 00 00 00 00 00 00`
has presence byte 13 but type code 0, which `range_type_info` does not
map, so `parse_data` raises `KeyError` instead of returning a structured
record. -/
theorem parse_data_keyError_on_type_zero :
    parse_data frameTypeZero = Except.error PyErr.keyError := by
  rfl

/-- C1 (amended): for every frame with presence byte 13 whose type,
AC/DC and range codes all have entries in the decode tables, `parse_data`
returns the structured record whose `value` is `parse_number_unit` of the
same frame and whose twelve boolean flags are exactly the specified bits
of bytes 2 and 9; and for every frame whose presence byte is not 13 it
returns the no-data sentinel rather than raising. -/
theorem parse_data_decodes_valid_frames :
    (∀ (f : Frame) (t a r : String),
      f.b0 = 13 →
      range_type_info (f.b1 &&& ((1 <<< 3) - 1)) = Option.some t →
      acdcTable ((f.b1 &&& ((1 <<< 4) - 1)) >>> 3) = Option.some a →
      range_info ((f.b1 &&& ((1 <<< 7) - 1)) >>> 4) = Option.some r →
      parse_data f = Except.ok (ParseDataResult.state
        { type := t, acdc := a, range := r,
          thold := decide (f.b2 &&& 1 ≠ 0),
          minmax := decide (f.b2 &&& (1 <<< 2) ≠ 0),
          hertz := decide (f.b2 &&& (1 <<< 4) ≠ 0),
          null := decide (f.b2 &&& (1 <<< 5) ≠ 0),
          auto := decide (f.b2 &&& (1 <<< 6) ≠ 0),
          doublebeep := decide (f.b9 &&& 1 ≠ 0),
          autorange := decide (f.b9 &&& (1 <<< 2) ≠ 0),
          contbuzz := decide (f.b9 &&& (1 <<< 3) ≠ 0),
          dispmin := decide (f.b9 &&& (1 <<< 4) ≠ 0),
          dispmax := decide (f.b9 &&& (1 <<< 5) ≠ 0),
          disphold := decide (f.b9 &&& (1 <<< 6) ≠ 0),
          gate10sec := decide (f.b9 &&& (1 <<< 7) ≠ 0),
          value := parse_number_unit f })) ∧
    (∀ f : Frame, f.b0 ≠ 13 → parse_data f = Except.ok ParseDataResult.noData) := by
  constructor
  · intro f t a r h13 ht ha hr
    simp only [show (1 <<< 3 - 1 : ℕ) = 7 from rfl,
      show (1 <<< 4 - 1 : ℕ) = 15 from rfl,
      show (1 <<< 7 - 1 : ℕ) = 127 from rfl] at ht ha hr
    simp [parse_data, h13, ht, ha, hr]
  · intro f h
    simp [parse_data, h]

/-- C1 (witness): the amended theorem applied to the `Ohm` frame and
to a frame without the presence marker. -/
theorem parse_data_decodes_valid_frames_witness :
    parse_data frameOhm = Except.ok (ParseDataResult.state
      { type := "Ohm", acdc := "DC", range := "400 Ohm",
        thold := false, minmax := false, hertz := false, null := false,
        auto := false, doublebeep := false, autorange := false,
        contbuzz := false, dispmin := false, dispmax := false,
        disphold := false, gate10sec := false,
        value := parse_number_unit frameOhm }) ∧
    parse_data frameNoData = Except.ok ParseDataResult.noData := by
  constructor
  · have h := parse_data_decodes_valid_frames.1 frameOhm "Ohm" "DC" "400 Ohm"
      (by decide) (by decide) (by decide) (by decide)
    simpa using h
  · exact parse_data_decodes_valid_frames.2 frameNoData (by decide)

/-- C4 (counterexample): at `t0 = -3`, `ΔT = 1`, `x0 = 0`, `Δx = 2`
the quotient is `-1.5`; Python `int()` truncates toward zero, so the code
computes `data_start = 0`, while the claimed floor formula gives `-1`. -/
theorem computeWindow_not_floor_at_negative :
    (computeWindow (-3) 1 0 2).1 = 0 ∧
    (⌊(((-3 : ℚ) - 0) / 2)⌋ + 1 : ℤ) = -1 ∧ (0 : ℤ) ≠ -1 := by
  refine ⟨?_, ?_, by decide⟩
  · norm_num [computeWindow, pyTrunc]
    rw [show (⌈(-(3 / 2) : ℚ)⌉ : ℤ) = -1 from by
      rw [Int.ceil_eq_iff] <;> norm_num]
    decide
  · norm_num

/-- C4 (amended): with `data_start`/`data_stop` unset, the window is
converted with truncation toward zero — `start = trunc((t0 − x0)/Δx) + 1`
and `stop = trunc((t0 + ΔT − x0)/Δx)` — which agrees with the spec's
floor formulas exactly when the quotients are nonnegative. -/
theorem computeWindow_trunc_floor_agreement (t0 DeltaT x_0 dx : ℚ) :
    computeWindow t0 DeltaT x_0 dx =
      (pyTrunc ((t0 - x_0) / dx) + 1, pyTrunc ((t0 + DeltaT - x_0) / dx)) ∧
    (0 ≤ (t0 - x_0) / dx →
      (computeWindow t0 DeltaT x_0 dx).1 = ⌊(t0 - x_0) / dx⌋ + 1) ∧
    (0 ≤ (t0 + DeltaT - x_0) / dx →
      (computeWindow t0 DeltaT x_0 dx).2 = ⌊(t0 + DeltaT - x_0) / dx⌋) := by
  refine ⟨rfl, ?_, ?_⟩ <;> intro h <;> simp [computeWindow, pyTrunc, if_pos h]

/-- C4 (witness): the amended theorem at `t0 = 3`, `ΔT = 1`,
`x0 = 0`, `Δx = 2`, where the quotients are nonnegative. -/
theorem computeWindow_trunc_floor_agreement_witness :
    (computeWindow 3 1 0 2).1 = ⌊((3 : ℚ) - 0) / 2⌋ + 1 ∧
    (computeWindow 3 1 0 2).2 = ⌊((3 : ℚ) + 1 - 0) / 2⌋ := by
  refine ⟨(computeWindow_trunc_floor_agreement 3 1 0 2).2.1 (by norm_num),
    (computeWindow_trunc_floor_agreement 3 1 0 2).2.2 (by norm_num)⟩

/-- C5 (code bug): `send_command` and `read_data` have no
`try`/`finally`; when the serial write (or read) raises after the lock was
acquired, the error propagates with the lock still held. -/
theorem dmm_lock_held_across_raise :
    (send_command 97 true serWriteFails ⟨false⟩).1 = Except.error PyErr.serialError ∧
    (send_command 97 true serWriteFails ⟨false⟩).2.lockHeld = true ∧
    (read_data true true serReadFails ⟨false⟩).1 = Except.error PyErr.serialError ∧
    (read_data true true serReadFails ⟨false⟩).2.lockHeld = true := by
  refine ⟨rfl, rfl, rfl, rfl⟩

/-- C10 (counterexample): on a PSU whose serial link is open and whose
device answers `"12000"`, `get_voltage` raises `ConnectionError`, not the
claimed `TypeError`: `is_connected` reads the never-assigned attribute
`serial`, so it is always false and `_send_and_receive` raises before any
transport I/O. -/
theorem get_voltage_raises_connectionError :
    get_voltage ⟨true⟩ ⟨true, true, "12000"⟩ = Except.error PyErr.connectionError ∧
    PyErr.connectionError ≠ PyErr.typeError := by
  exact ⟨rfl, by decide⟩

/-- C10 (amended): `get_voltage` and `get_current` never return a
numeric value — every call raises `ConnectionError` because the
connected-state check reads the missing `serial` attribute; and the
`response / 1000` expression they are built from raises `TypeError` for
every possible `_send_and_receive` result, so no numeric value could be
produced even past the connection check. -/
theorem psu_getters_never_numeric :
    (∀ (st : PSUState) (ser : PSUSerial),
      get_voltage st ser = Except.error PyErr.connectionError) ∧
    (∀ (st : PSUState) (ser : PSUSerial),
      get_current st ser = Except.error PyErr.connectionError) ∧
    (∀ (resp : Option String) (n : ℤ),
      pyDivResponse resp n = Except.error PyErr.typeError) := by
  refine ⟨fun st ser => rfl, fun st ser => rfl, fun resp n => rfl⟩

/-- C2: in the curve processing of `read_data_one_channel`, every raw
big-endian signed 16-bit sample `r` is rescaled to
`(r − verticalPositionOffset) × verticalScaleFactor`; when the time axis
is requested its `i`-th entry is `x0 + (i + data_start − 1) × Δx` for
every `i ≤ data_stop − data_start`; every successful curve read has
exactly this shape; and raw sample 2048 with offset 2048 and scale 0.01
rescales to 0. -/
theorem read_data_one_channel_rescale :
    (∀ (offset scale : ℚ) (res : List ℤ) (i : ℕ),
      (curveY offset scale res)[i]? =
        (res[i]?).map (fun (r : ℤ) => ((r : ℚ) - offset) * scale)) ∧
    (∀ (x_0 dx : ℚ) (ds dstop : ℤ) (i : ℕ), ds ≤ dstop → (i : ℤ) ≤ dstop - ds →
      (curveXAxis x_0 dx ds dstop)[i]? =
        Option.some (x_0 + ((i : ℤ) + ds - 1) * dx)) ∧
    (∀ (offset scale x_0 dx : ℚ) (ds dstop : ℤ) (buffer : List ℕ)
        (xo : Bool) (out : RDOCOut),
      curveTail offset scale x_0 dx ds dstop buffer xo = Except.ok out →
      ∃ res, curveSamples buffer = Except.ok res ∧
        out = (if xo then RDOCOut.xy (curveXAxis x_0 dx ds dstop)
                        (curveY offset scale res)
               else RDOCOut.yOnly (curveY offset scale res))) ∧
    curveY 2048 (1 / 100) [2048] = [0] := by
  refine ⟨?_, ?_, ?_, ?_⟩
  · intro offset scale res i
    simp only [curveY, List.getElem?_map]
  · intro x_0 dx ds dstop i hds hi
    have hn : i < (dstop - (ds - 1)).toNat := by omega
    rw [curveXAxis, npArange, List.map_map, List.getElem?_map,
      List.getElem?_range hn]
    simp only [Option.map_some', Function.comp]
    congr 1
    push_cast
    ring
  · intro offset scale x_0 dx ds dstop buffer xo out h
    simp only [curveTail] at h
    cases hs : curveSamples buffer <;> rw [hs] at h
    · simp at h
    · refine ⟨_, rfl, ?_⟩
      injection h with h2
      exact h2.symm
  · norm_num [curveY]

/-- C2 (witness): the theorem applied at concrete inputs — the axis
entry of a two-sample window, and a curve buffer whose header byte 1 is 0
carrying the single sample 2048. -/
theorem read_data_one_channel_rescale_witness :
    (curveXAxis 0 1 1 2)[0]? = Option.some 0 ∧
    (∃ res, curveSamples [35, 0, 8, 0] = Except.ok res ∧
      RDOCOut.yOnly [0] = RDOCOut.yOnly (curveY 2048 (1 / 100) res)) := by
  constructor
  · have h := read_data_one_channel_rescale.2.1 0 1 1 2 0 (by decide) (by decide)
    simpa using h
  · have h := read_data_one_channel_rescale.2.2.1 2048 (1 / 100) 0 1 1 1
      [35, 0, 8, 0] false (RDOCOut.yOnly [0])
      (by norm_num [curveTail, curveSamples, decodeInt16BE, int16OfBytes, curveY])
    simpa using h

/-- C3 (code bug): the class defines `_write` but no `write`, so the
valid-input paths of `set_coupling` and `set_impedance` raise
`AttributeError` after only the `SET?` setup query — no write reaches the
session — while `start_acq`, which calls the private `_write`, does issue
its single write.  The two call forms are not the same operation. -/
theorem set_coupling_write_lookup_fails :
    tektronixScopeMethods.contains "write" = false ∧
    tektronixScopeMethods.contains "_write" = true ∧
    (set_coupling freshScopeCache insTwoCh (ChanArg.num 1) (PyVal.s "AC")).2.2 =
      Except.error PyErr.attributeError ∧
    (set_coupling freshScopeCache insTwoCh (ChanArg.num 1) (PyVal.s "AC")).1 =
      [ScopeEvent.ask "SET?"] ∧
    (set_impedance freshScopeCache insTwoCh (ChanArg.num 1) (PyVal.s "MEG")).2.2 =
      Except.error PyErr.attributeError ∧
    (set_impedance freshScopeCache insTwoCh (ChanArg.num 1) (PyVal.s "MEG")).1 =
      [ScopeEvent.ask "SET?"] ∧
    start_acq = Except.ok [ScopeEvent.write "ACQ:STATE RUN"] := by
  refine ⟨rfl, rfl, rfl, rfl, rfl, rfl, rfl⟩

/-- C6: on a driver whose lock is acquired in time and whose transport
operations succeed, `send_command` with a keypress byte returns — without
raising, and with the lock released — `True` exactly when the response is
the single echoed command byte, and `False` for every empty, multi-byte
or mismatched response. -/
theorem send_command_echo_iff (cmd : ℕ) (ret : List ℕ) (st : DmmState)
    (hcmd : cmd ∈ keypressCommands) :
    send_command cmd true (serEchoes ret) st =
      (Except.ok (decide (ret = [cmd])), { st with lockHeld := false }) := by
  have hlt : cmd < 128 := by fin_cases hcmd <;> decide
  simp only [send_command, serEchoes, pyDecodeByte, if_pos hlt]
  match ret with
  | [] => simp
  | [b] => simp
  | b :: c :: t => simp

/-- C6 (witness): the theorem at command byte `a` (97) with an exact
echo, a mismatched byte, an empty response and a two-byte response. -/
theorem send_command_echo_iff_witness :
    send_command 97 true (serEchoes [97]) ⟨false⟩ = (Except.ok true, ⟨false⟩) ∧
    send_command 97 true (serEchoes [98]) ⟨false⟩ = (Except.ok false, ⟨false⟩) ∧
    send_command 97 true (serEchoes []) ⟨false⟩ = (Except.ok false, ⟨false⟩) ∧
    send_command 97 true (serEchoes [97, 97]) ⟨false⟩ = (Except.ok false, ⟨false⟩) := by
  refine ⟨?_, ?_, ?_, ?_⟩
  · have h := send_command_echo_iff 97 [97] ⟨false⟩ (by decide)
    simpa using h
  · have h := send_command_echo_iff 97 [98] ⟨false⟩ (by decide)
    simpa using h
  · have h := send_command_echo_iff 97 [] ⟨false⟩ (by decide)
    simpa using h
  · have h := send_command_echo_iff 97 [97, 97] ⟨false⟩ (by decide)
    simpa using h

/-- C7: a non-booster acquisition that supplies a time window (`t0`
or `ΔT`) together with an explicit sample index (`data_start` or
`data_stop`) fails with the scope protocol error before any session
interaction: the error is raised with an empty I/O trace. -/
theorem rdoc_window_args_mutually_exclusive (channel : ChanArg)
    (ds dstop : Option ℤ) (xo : Bool) (t0 DeltaT : Option ℚ)
    (c : ScopeCache) (ins : Instrument)
    (hw : t0.isSome ∨ DeltaT.isSome) (hd : ds.isSome ∨ dstop.isSome) :
    (read_data_one_channel channel ds dstop xo t0 DeltaT false c ins).out =
      Except.error PyErr.tekError ∧
    (read_data_one_channel channel ds dstop xo t0 DeltaT false c ins).trace = [] := by
  have hw2 : (t0.isSome || DeltaT.isSome) = true := by
    rcases hw with h | h <;> simp [h]
  have hd2 : (dstop.isNone && ds.isNone) = false := by
    rcases hd with h | h
    · rcases ds with _ | v
      · simp at h
      · simp
    · rcases dstop with _ | v
      · simp at h
      · simp
  simp [read_data_one_channel, rdocCore, hw2, hd2]

/-- C7 (witness): both `data_start` and `t0` supplied on a fresh
driver. -/
theorem rdoc_window_args_mutually_exclusive_witness :
    (read_data_one_channel ChanArg.none (Option.some 1) Option.none false
      (Option.some 0) Option.none false freshScopeCache insTwoCh).out =
      Except.error PyErr.tekError ∧
    (read_data_one_channel ChanArg.none (Option.some 1) Option.none false
      (Option.some 0) Option.none false freshScopeCache insTwoCh).trace = [] :=
  rdoc_window_args_mutually_exclusive ChanArg.none (Option.some 1) Option.none
    false (Option.some 0) Option.none freshScopeCache insTwoCh
    (Or.inl rfl) (Or.inl rfl)

/-- C8: on a driver instance that has never acquired (`first_read`
not yet defined), `read_data_one_channel` with `booster = true` is the
same function of the remaining inputs as with `booster = false`: the
booster flag is forced off, so the two calls return identical results,
traces and cached state for every parameter combination. -/
theorem rdoc_first_call_booster_identity (channel : ChanArg)
    (ds dstop : Option ℤ) (xo : Bool) (t0 DeltaT : Option ℚ)
    (c : ScopeCache) (ins : Instrument) (h : c.firstReadDefined = false) :
    read_data_one_channel channel ds dstop xo t0 DeltaT true c ins =
      read_data_one_channel channel ds dstop xo t0 DeltaT false c ins := by
  simp [read_data_one_channel, h]

/-- C8 (witness): the first-ever plain acquisition on a fresh driver
with `booster = true` equals the `booster = false` call. -/
theorem rdoc_first_call_booster_identity_witness :
    read_data_one_channel ChanArg.none Option.none Option.none false
      Option.none Option.none true freshScopeCache insTwoCh =
    read_data_one_channel ChanArg.none Option.none Option.none false
      Option.none Option.none false freshScopeCache insTwoCh :=
  rdoc_first_call_booster_identity ChanArg.none Option.none Option.none false
    Option.none Option.none freshScopeCache insTwoCh rfl

/-- Appending a fresh in-range pin preserves a category list's
no-duplicates and in-range properties. -/
theorem listInv_append {l : List ℤ} {p lo hi : ℤ}
    (hn : l.Nodup) (hr : ∀ q ∈ l, lo ≤ q ∧ q ≤ hi)
    (h1 : lo ≤ p) (h2 : p ≤ hi) (hm : p ∉ l) :
    (l ++ [p]).Nodup ∧ ∀ q ∈ l ++ [p], lo ≤ q ∧ q ≤ hi := by
  constructor
  · rw [List.nodup_append]
    refine ⟨hn, List.nodup_singleton p, ?_⟩
    intro a ha hap
    rw [List.mem_singleton] at hap
    exact hm (hap ▸ ha)
  · intro q hq
    rcases List.mem_append.mp hq with h | h
    · exact hr q h
    · rw [List.mem_singleton] at h
      subst h
      exact ⟨h1, h2⟩

/-- `list.remove` preserves a category list's no-duplicates and in-range
properties. -/
theorem listInv_erase {l : List ℤ} {p lo hi : ℤ}
    (hn : l.Nodup) (hr : ∀ q ∈ l, lo ≤ q ∧ q ≤ hi) :
    (l.erase p).Nodup ∧ ∀ q ∈ l.erase p, lo ≤ q ∧ q ≤ hi :=
  ⟨(List.erase_sublist p l).nodup hn, fun q hq => hr q (List.mem_of_mem_erase hq)⟩

/-- Every single register/unregister operation preserves the registry
invariant. -/
theorem applyRegOp_preserves_inv (r : PinRegister) (op : RegOp)
    (h : pinRegisterInv r) : pinRegisterInv (applyRegOp r op) := by
  rcases op with ⟨cat, p⟩ | ⟨cat, p⟩
  · rcases cat
    case digitalIn =>
      by_cases h1 : (0 : ℤ) ≤ p ∧ p ≤ 7
      · by_cases h2 : p ∈ r.digital_inputs
        · simp only [applyRegOp, registerPin, register_digital_input,
            if_neg (not_not_intro h1), if_pos h2]
          exact h
        · simp only [applyRegOp, registerPin, register_digital_input,
            if_neg (not_not_intro h1), if_neg h2]
          intro c
          cases c with
          | digitalIn =>
              exact listInv_append (h PinCat.digitalIn).1
                (h PinCat.digitalIn).2 h1.1 h1.2 h2
          | digitalOut => exact h PinCat.digitalOut
          | analogIn => exact h PinCat.analogIn
          | analogOut => exact h PinCat.analogOut
      · simp only [applyRegOp, registerPin, register_digital_input, if_pos h1]
        exact h
    case digitalOut =>
      by_cases h1 : (0 : ℤ) ≤ p ∧ p ≤ 7
      · by_cases h2 : p ∈ r.digital_outputs
        · simp only [applyRegOp, registerPin, register_digital_output,
            if_neg (not_not_intro h1), if_pos h2]
          exact h
        · simp only [applyRegOp, registerPin, register_digital_output,
            if_neg (not_not_intro h1), if_neg h2]
          intro c
          cases c with
          | digitalIn => exact h PinCat.digitalIn
          | digitalOut =>
              exact listInv_append (h PinCat.digitalOut).1
                (h PinCat.digitalOut).2 h1.1 h1.2 h2
          | analogIn => exact h PinCat.analogIn
          | analogOut => exact h PinCat.analogOut
      · simp only [applyRegOp, registerPin, register_digital_output, if_pos h1]
        exact h
    case analogIn =>
      by_cases h1 : (0 : ℤ) ≤ p ∧ p ≤ 7
      · by_cases h2 : p ∈ r.analog_inputs
        · simp only [applyRegOp, registerPin, register_analog_input,
            if_neg (not_not_intro h1), if_pos h2]
          exact h
        · simp only [applyRegOp, registerPin, register_analog_input,
            if_neg (not_not_intro h1), if_neg h2]
          intro c
          cases c with
          | digitalIn => exact h PinCat.digitalIn
          | digitalOut => exact h PinCat.digitalOut
          | analogIn =>
              exact listInv_append (h PinCat.analogIn).1
                (h PinCat.analogIn).2 h1.1 h1.2 h2
          | analogOut => exact h PinCat.analogOut
      · simp only [applyRegOp, registerPin, register_analog_input, if_pos h1]
        exact h
    case analogOut =>
      by_cases h1 : (1 : ℤ) ≤ p ∧ p ≤ 3
      · by_cases h2 : p ∈ r.analog_outputs
        · simp only [applyRegOp, registerPin, register_analog_output,
            if_neg (not_not_intro h1), if_pos h2]
          exact h
        · simp only [applyRegOp, registerPin, register_analog_output,
            if_neg (not_not_intro h1), if_neg h2]
          intro c
          cases c with
          | digitalIn => exact h PinCat.digitalIn
          | digitalOut => exact h PinCat.digitalOut
          | analogIn => exact h PinCat.analogIn
          | analogOut =>
              exact listInv_append (h PinCat.analogOut).1
                (h PinCat.analogOut).2 h1.1 h1.2 h2
      · simp only [applyRegOp, registerPin, register_analog_output, if_pos h1]
        exact h
  · rcases cat
    case digitalIn =>
      by_cases h2 : p ∈ r.digital_inputs
      · simp only [applyRegOp, unregisterPin, unregister_digital_input, if_pos h2]
        intro c
        cases c with
        | digitalIn =>
            exact listInv_erase (h PinCat.digitalIn).1 (h PinCat.digitalIn).2
        | digitalOut => exact h PinCat.digitalOut
        | analogIn => exact h PinCat.analogIn
        | analogOut => exact h PinCat.analogOut
      · simp only [applyRegOp, unregisterPin, unregister_digital_input, if_neg h2]
        exact h
    case digitalOut =>
      by_cases h2 : p ∈ r.digital_outputs
      · simp only [applyRegOp, unregisterPin, unregister_digital_output, if_pos h2]
        intro c
        cases c with
        | digitalIn => exact h PinCat.digitalIn
        | digitalOut =>
            exact listInv_erase (h PinCat.digitalOut).1 (h PinCat.digitalOut).2
        | analogIn => exact h PinCat.analogIn
        | analogOut => exact h PinCat.analogOut
      · simp only [applyRegOp, unregisterPin, unregister_digital_output, if_neg h2]
        exact h
    case analogIn =>
      by_cases h2 : p ∈ r.analog_inputs
      · simp only [applyRegOp, unregisterPin, unregister_analog_input, if_pos h2]
        intro c
        cases c with
        | digitalIn => exact h PinCat.digitalIn
        | digitalOut => exact h PinCat.digitalOut
        | analogIn =>
            exact listInv_erase (h PinCat.analogIn).1 (h PinCat.analogIn).2
        | analogOut => exact h PinCat.analogOut
      · simp only [applyRegOp, unregisterPin, unregister_analog_input, if_neg h2]
        exact h
    case analogOut =>
      by_cases h2 : p ∈ r.analog_outputs
      · simp only [applyRegOp, unregisterPin, unregister_analog_output, if_pos h2]
        intro c
        cases c with
        | digitalIn => exact h PinCat.digitalIn
        | digitalOut => exact h PinCat.digitalOut
        | analogIn => exact h PinCat.analogIn
        | analogOut =>
            exact listInv_erase (h PinCat.analogOut).1 (h PinCat.analogOut).2
      · simp only [applyRegOp, unregisterPin, unregister_analog_output, if_neg h2]
        exact h

/-- C9: starting from an empty `PinRegister`, after any sequence of
register/unregister operations every category's list has no duplicates
and only in-range pins; registration in a category succeeds exactly when
the pin is inside the category's fixed range and not already registered
there; and the same pin number can be registered in two different
categories (digital-in and analog-in) independently. -/
theorem pin_register_claims :
    (∀ ops : List RegOp, pinRegisterInv (runRegOps ops emptyPinRegister)) ∧
    (∀ (cat : PinCat) (p : ℤ) (r : PinRegister),
      (∃ r2, registerPin cat p r = Except.ok r2) ↔
        ((catRange cat).1 ≤ p ∧ p ≤ (catRange cat).2 ∧ p ∉ catPins cat r)) ∧
    (∀ p : ℤ, 0 ≤ p → p ≤ 7 →
      ∃ r1 r2, register_digital_input p emptyPinRegister = Except.ok r1 ∧
        register_analog_input p r1 = Except.ok r2) := by
  refine ⟨?_, ?_, ?_⟩
  · intro ops
    have hstep : ∀ (l : List RegOp) (r : PinRegister), pinRegisterInv r →
        pinRegisterInv (runRegOps l r) := by
      intro l
      induction l with
      | nil => intro r h; exact h
      | cons op rest ih =>
          intro r h
          exact ih (applyRegOp r op) (applyRegOp_preserves_inv r op h)
    refine hstep ops emptyPinRegister ?_
    intro c
    cases c <;> exact ⟨List.nodup_nil, by intro q hq; cases hq⟩
  · intro cat p r
    constructor
    · rintro ⟨r2, hr2⟩
      cases cat
      all_goals
        simp only [registerPin, register_digital_input, register_digital_output,
          register_analog_input, register_analog_output] at hr2
      all_goals
        split_ifs at hr2 with h1 h2
      all_goals
        exact ⟨h1.1, h1.2, h2⟩
    · rintro ⟨hlo, hhi, hmem⟩
      cases cat
      all_goals
        simp only [catPins] at hmem
      all_goals
        simp only [catRange] at hlo hhi
      all_goals
        simp only [registerPin, register_digital_input, register_digital_output,
          register_analog_input, register_analog_output]
      all_goals
        rw [if_neg (not_not_intro ⟨hlo, hhi⟩), if_neg hmem]
      all_goals
        exact ⟨_, rfl⟩
  · intro p h0 h7
    refine ⟨⟨[p], [], [], []⟩, ⟨[p], [], [p], []⟩, ?_, ?_⟩
    · simp only [register_digital_input, emptyPinRegister]
      rw [if_neg (not_not_intro ⟨h0, h7⟩), if_neg (List.not_mem_nil p)]
      rfl
    · simp only [register_analog_input]
      rw [if_neg (not_not_intro ⟨h0, h7⟩), if_neg (List.not_mem_nil p)]
      rfl

/-- C9 (witness): pin 3 registered as digital-in and analog-in on an
empty register, and a two-operation run keeping the invariant. -/
theorem pin_register_claims_witness :
    pinRegisterInv (runRegOps
      [RegOp.reg PinCat.digitalIn 3, RegOp.reg PinCat.analogIn 3]
      emptyPinRegister) ∧
    (∃ r2, registerPin PinCat.digitalIn 3 emptyPinRegister = Except.ok r2) ∧
    (∃ r1 r2, register_digital_input 3 emptyPinRegister = Except.ok r1 ∧
      register_analog_input 3 r1 = Except.ok r2) := by
  refine ⟨pin_register_claims.1 _, ?_, ?_⟩
  · exact (pin_register_claims.2.1 PinCat.digitalIn 3 emptyPinRegister).mpr
      (by refine ⟨by decide, by decide, ?_⟩; simp [catPins, emptyPinRegister])
  · exact pin_register_claims.2.2 3 (by decide) (by decide)

/-- Sanity check of the acquisition model: a booster call on a driver
whose cached attributes are populated runs to completion — it issues only
the `CURVE?` query and returns the rescaled samples, produced by the
`curveTail` pipeline of C2. -/
theorem rdoc_booster_path_completes :
    (read_data_one_channel ChanArg.none Option.none Option.none false
      Option.none Option.none true primedScopeCache insCurve).out =
      Except.ok (RDOCOut.yOnly [0, 0]) ∧
    (read_data_one_channel ChanArg.none Option.none Option.none false
      Option.none Option.none true primedScopeCache insCurve).trace =
      [ScopeEvent.askRaw "CURVE?"] := by
  constructor <;>
    norm_num [read_data_one_channel, rdocCore, primedScopeCache, insCurve,
      insTwoCh, curveTail, curveSamples, decodeInt16BE, int16OfBytes, curveY,
      curveXAxis, npArange]
